import Mathlib

/-!
Verification development for realloc4cpp: a growable contiguous-storage
container (`autogrow_array` over `raw_buffer`) whose growth and shrink
algorithm prefers in-place reallocation of the underlying block and falls
back to allocate-and-move when the memory provider cannot resize in place.

Shallow embedding conventions:
* Pointers are modelled as natural-number addresses, with 0 playing the
  role of the null pointer, so a `raw_buffer` is the pair of its bounds
  `begin_` and `end_` (realloc4cpp.cpp line 18) and its capacity is
  `end_ - begin_` (line 92).
* `size_type` is the 64-bit `std::size_t`; `~size_type(0)` is
  `2 ^ 64 - 1`.
* A memory provider (allocator) is modelled by its optional in-place
  expand and shrink primitives; `none` for a primitive means the
  allocator type does not declare it, and the value-level `Option Nat`
  result of a primitive is the new element capacity on success, `none`
  on soft failure.
* Throwing `std::length_error` is modelled by `Except`/`Option` error
  results; allocation addresses for fallback buffers are passed in
  explicitly (allocation success is assumed where a claim assumes it).
-/

/-- The 64-bit `~size_type(0)` used by `raw_buffer::max_capacity`. -/
def size_type_max : Nat := 2 ^ 64 - 1

/-- realloc4cpp.cpp line 91: `max_capacity() { return ~size_type(0) / sizeof(T); }`,
as a function of the element size `s = sizeof(T)`. -/
def max_capacity (s : Nat) : Nat := size_type_max / s

/-- realloc4cpp.cpp lines 16-18: the fixed-size memory buffer, reduced to its
two pointer fields `begin_` and `end_` (addresses, 0 = null). -/
structure raw_buffer where
  begin_ : Nat
  end_ : Nat
deriving DecidableEq

/-- realloc4cpp.cpp line 92: `capacity() { return end_ - begin_; }`. -/
def raw_buffer.capacity (b : raw_buffer) : Nat := b.end_ - b.begin_

/-- realloc4cpp.cpp line 23: the default constructor
`raw_buffer() : begin_(nullptr), end_(begin_)`. -/
def raw_buffer.null : raw_buffer := ⟨0, 0⟩

/-- A memory provider, described by the optional in-place resize primitives
the capability adapter probes for.  `expandFn cur preferred_n least_n` and
`shrinkFn cur n` return the new element capacity on success (the concrete
provider in reallocator.h lines 39-62 implements both on top of jemalloc;
`std::allocator` has neither). -/
structure Allocator where
  expandFn : Option (Nat → Nat → Nat → Option Nat)
  shrinkFn : Option (Nat → Nat → Option Nat)

/-- The provider with no extended capability (`std::allocator`). -/
def Allocator.noCap : Allocator := ⟨none, none⟩

/-- Modelled from the spec: `allocator_traits<A>::expand_by`, the capability
adapter operation called by `raw_buffer::expand_by_at_least`
(realloc4cpp.cpp line 61) but absent from the provided allocator_traits.h
(which carries only `resize_allocated`).  Spec section 4.1,
`expand_in_place`: dispatch to the provider's expand primitive when the
provider declares one; "if the provider has no such capability, returns
false unconditionally and `cur_size` is untouched" — the adapter never
emulates the operation by allocating a new block. -/
def allocator_traits.expand_by (a : Allocator)
    (cur preferred_n least_n : Nat) : Option Nat :=
  match a.expandFn with
  | some f => f cur preferred_n least_n
  | none => none

/-- Modelled from the spec: `allocator_traits<A>::shrink_by`, the capability
adapter operation called by `raw_buffer::shrink_by` (realloc4cpp.cpp
line 71) but absent from the provided allocator_traits.h.  Spec
section 4.1, `shrink_in_place`: dispatch to the provider's shrink
primitive when present; "absent capability returns false". -/
def allocator_traits.shrink_by (a : Allocator) (cur n : Nat) : Option Nat :=
  match a.shrinkFn with
  | some f => f cur n
  | none => none

/-- Spec section 4.1 provider contract for `expand_in_place`: a successful
expand by `(preferred_n, least_n)` yields a new capacity of at least
`cur + least_n` ("accepting anywhere between `least_n` and `preferred_n`
(or more)"). -/
def Allocator.ExpandConforms (a : Allocator) : Prop :=
  ∀ f, a.expandFn = some f →
    ∀ cur preferred_n least_n r, f cur preferred_n least_n = some r →
      cur + least_n ≤ r

/-- Spec section 4.1 provider contract for `shrink_in_place`: a successful
shrink by `n` "updates `cur_size` down by at least `n`". -/
def Allocator.ShrinkConforms (a : Allocator) : Prop :=
  ∀ f, a.shrinkFn = some f →
    ∀ cur n r, f cur n = some r → r ≤ cur - n

/-- The exact-shrink provider assumed by the spec's shrink_to_fit property:
a successful shrink by `n` lands exactly at `cur - n`. -/
def Allocator.ShrinkExact (a : Allocator) : Prop :=
  ∀ f, a.shrinkFn = some f →
    ∀ cur n r, f cur n = some r → r = cur - n

/-- The outcome of running the sizing constructor: a buffer, or one of the
two error kinds the spec names (OutOfMemory from the provider's allocate,
LengthError from an overflow guard). -/
inductive CtorResult where
  | ok (b : raw_buffer)
  | outOfMemory
  | lengthError
deriving DecidableEq

/-- realloc4cpp.cpp lines 24-29: the sizing constructor
`raw_buffer(size_type initial_capacity) : begin_(A::allocate(*this, initial_capacity)), end_(begin_ + initial_capacity)`.
The provider's `allocate` is the function `alloc` (address on success,
`none` = OutOfMemory); the second component counts how many times the
constructor called `allocate`.  The constructor body performs no check of
its own before the call, so `lengthError` is never produced here. -/
def raw_buffer.ctor (alloc : Nat → Option Nat) (n : Nat) :
    CtorResult × Nat :=
  match alloc n with
  | some addr => (.ok ⟨addr, addr + n⟩, 1)
  | none => (.outOfMemory, 1)

/-- realloc4cpp.cpp lines 50-56: `additional_capacity(n)`: with
`cap = capacity()` and `cap_remain = max_capacity() - cap`, throw
`std::length_error` when `n > cap_remain`, otherwise return
`min cap cap_remain`.  `.error ()` models the throw. -/
def raw_buffer.additional_capacity (b : raw_buffer) (s n : Nat) :
    Except Unit Nat :=
  let cap := b.capacity
  let cap_remain := max_capacity s - cap
  if n > cap_remain then .error ()
  else .ok (min cap cap_remain)

/-- realloc4cpp.cpp lines 57-66: `expand_by_at_least(preferred_n, least_n)`
copies `capacity()` into a local, hands it by reference to the adapter's
`expand_by`, and only on success rewrites `end_ = begin_ + capacity`;
on failure it returns false having touched nothing. -/
def raw_buffer.expand_by_at_least (b : raw_buffer) (a : Allocator)
    (preferred_n least_n : Nat) : Bool × raw_buffer :=
  match allocator_traits.expand_by a b.capacity preferred_n least_n with
  | none => (false, b)
  | some c => (true, ⟨b.begin_, b.begin_ + c⟩)

/-- realloc4cpp.cpp lines 67-75: `shrink_by(n)` copies `capacity()` into a
local, hands it to the adapter's `shrink_by`, and only on success rewrites
`end_ = begin_ + capacity`. -/
def raw_buffer.shrink_by (b : raw_buffer) (a : Allocator) (n : Nat) :
    Bool × raw_buffer :=
  match allocator_traits.shrink_by a b.capacity n with
  | none => (false, b)
  | some c => (true, ⟨b.begin_, b.begin_ + c⟩)

/-- realloc4cpp.cpp lines 30-33: the move constructor
`raw_buffer(raw_buffer &&o) : begin_(o.begin_), end_(o.end_) { o.end_ = o.begin_ = nullptr; }`.
Returns (the newly constructed buffer, the moved-from source). -/
def raw_buffer.move_ctor (o : raw_buffer) : raw_buffer × raw_buffer :=
  (⟨o.begin_, o.end_⟩, ⟨0, 0⟩)

/-- realloc4cpp.cpp line 40 with lines 83-89: the move assignment
`operator=(raw_buffer &&o) { swap(o); }`, where `swap` exchanges `begin_`
and `end_`.  Returns (the assigned-to buffer, the moved-from source). -/
def raw_buffer.move_assign (self o : raw_buffer) : raw_buffer × raw_buffer :=
  (⟨o.begin_, o.end_⟩, ⟨self.begin_, self.end_⟩)

/-- realloc4cpp.cpp lines 97-100: the vector-like container: a `raw_buffer`
and the cursor `T *next` (`next = buf.begin()` initially). -/
structure autogrow_array where
  buf : raw_buffer
  next : Nat
deriving DecidableEq

/-- realloc4cpp.cpp line 115: `size() { return next - buf.begin(); }`. -/
def autogrow_array.size (arr : autogrow_array) : Nat :=
  arr.next - arr.buf.begin_

/-- realloc4cpp.cpp line 117: `capacity() { return buf.capacity(); }`. -/
def autogrow_array.capacity (arr : autogrow_array) : Nat :=
  arr.buf.capacity

/-- realloc4cpp.cpp line 106: the default-constructed array: a null buffer
and `next = buf.begin()`. -/
def autogrow_array.default_ctor : autogrow_array := ⟨raw_buffer.null, 0⟩

/-- realloc4cpp.cpp lines 140-146: `pop_back()`:
`assert(!empty()); buf.destroy(next); --next;`.  The assert is the
precondition (size > 0); the returned pair is (the updated array, the
address passed to `buf.destroy`). -/
def autogrow_array.pop_back (arr : autogrow_array) : autogrow_array × Nat :=
  (⟨arr.buf, arr.next - 1⟩, arr.next)

/-- realloc4cpp.cpp lines 154-179: `push_back(v)`.  When `next == buf.end()`
the capacity is grown first: `add_cap = buf.additional_capacity(1)`
(which may throw length_error, modelled by `none`); if
`buf.expand_by_at_least(add_cap, 1)` succeeds the elements stay in place,
otherwise a fresh `raw_buffer(size() + add_cap)` is built at `newAddr`,
the `size()` live elements are move-copied into it (`next` becomes
`new_buf.begin() + size()`) and the buffers are swapped.  Either way the
value is then constructed at `next` and `next` is incremented.  `s` is
`sizeof(T)`; the pushed value itself does not affect the shape of the
state and is omitted. -/
def autogrow_array.push_back (arr : autogrow_array) (a : Allocator)
    (s : Nat) (newAddr : Nat) : Option autogrow_array :=
  if arr.next = arr.buf.end_ then
    match arr.buf.additional_capacity s 1 with
    | .error () => none
    | .ok add_cap =>
      match arr.buf.expand_by_at_least a add_cap 1 with
      | (true, b) => some ⟨b, arr.next + 1⟩
      | (false, _) =>
        let sz := arr.size
        let new_buf : raw_buffer := ⟨newAddr, newAddr + (sz + add_cap)⟩
        some ⟨new_buf, (newAddr + sz) + 1⟩
  else
    some ⟨arr.buf, arr.next + 1⟩

/-- realloc4cpp.cpp lines 181-201: `shrink_to_fit()`: no-op when
`size() == capacity()`; otherwise try `buf.shrink_by(capacity() - size())`
and on failure build a fresh `raw_buffer(size())` at `newAddr`, move the
live elements into it (`next` becomes `new_buf.begin() + size()`) and
swap. -/
def autogrow_array.shrink_to_fit (arr : autogrow_array) (a : Allocator)
    (newAddr : Nat) : autogrow_array :=
  if arr.size = arr.capacity then arr
  else
    match arr.buf.shrink_by a (arr.capacity - arr.size) with
    | (true, b) => ⟨b, arr.next⟩
    | (false, _) =>
      let sz := arr.size
      let new_buf : raw_buffer := ⟨newAddr, newAddr + sz⟩
      ⟨new_buf, newAddr + sz⟩

/-- allocator_traits.h: the result of one call to a provider's
`resize_allocated` member: the boolean return and the value the call left
in the by-reference size parameter. -/
structure ResizeCall where
  ok : Bool
  out : Nat
deriving DecidableEq

/-- The resize capability a provider type may declare, as probed by the
overload set in allocator_traits.h lines 16-42: a dual-bound
`resize_allocated(p, cur_size, preferred_size, at_least_size)`, a
single-target `resize_allocated(p, cur_size, new_size)`, or neither. -/
inductive ResizeAPI where
  | dualBound (f : Nat → Nat → Nat → ResizeCall)
  | singleTarget (f : Nat → Nat → ResizeCall)
  | absent

/-- allocator_traits.h lines 16-42: the three `resize_allocated_at_least`
overloads behind `resize_allocated(a, p, cur_size, preferred_size, at_least_size)`
(lines 89-94).  Dual-bound provider: one direct call.  Single-target
provider: save `new_size = preferred_size`, call once with
`preferred_size`; on success return true; if `at_least_size == new_size`
return false; otherwise set `preferred_size = at_least_size` and call
again.  No capability: false.  Result: (boolean, final value of the
by-reference `preferred_size`, number of provider calls made). -/
def resize_allocated_at_least (api : ResizeAPI)
    (cur preferred at_least : Nat) : Bool × Nat × Nat :=
  match api with
  | .dualBound f =>
    let r := f cur preferred at_least
    (r.ok, r.out, 1)
  | .singleTarget f =>
    let new_size := preferred
    let r1 := f cur preferred
    if r1.ok then (true, r1.out, 1)
    else if at_least = new_size then (false, r1.out, 1)
    else
      let r2 := f cur at_least
      (r2.ok, r2.out, 2)
  | .absent => (false, preferred, 0)

/-- Written from the spec's words (section 4.1, `resize_in_place`
resolution order), to be compared with `resize_allocated_at_least`:
"(1) if the provider exposes an exact-resize-with-dual-bound primitive
(preferred size plus a minimum-acceptable size), call it directly;
(2) else if it exposes a single-target resize primitive, call it once
with the preferred size, and if that fails and the minimum-acceptable
size differs from the preferred size, retry once with the minimum;
(3) else report failure." -/
def resize_in_place_spec (api : ResizeAPI)
    (cur preferred at_least : Nat) : Bool × Nat × Nat :=
  match api with
  | .dualBound f => ((f cur preferred at_least).ok, (f cur preferred at_least).out, 1)
  | .singleTarget f =>
    let first := f cur preferred
    if first.ok then (true, first.out, 1)
    else if at_least ≠ preferred then
      ((f cur at_least).ok, (f cur at_least).out, 2)
    else (false, first.out, 1)
  | .absent => (false, preferred, 0)

/-- A provider whose expand primitive always succeeds and grants exactly the
minimum acceptable amount: new capacity `cur + least_n`. -/
def exactExpandAlloc : Allocator :=
  ⟨some (fun cur _ least_n => some (cur + least_n)), none⟩

/-- A provider whose shrink primitive always succeeds and lands exactly at
`cur - n`. -/
def exactShrinkAlloc : Allocator :=
  ⟨none, some (fun cur n => some (cur - n))⟩

theorem exactExpandAlloc_conforms : exactExpandAlloc.ExpandConforms := by
  intro f hf cur preferred_n least_n r hr
  simp only [exactExpandAlloc] at hf
  cases hf
  simp only [Option.some.injEq] at hr
  omega

theorem exactShrinkAlloc_exact : exactShrinkAlloc.ShrinkExact := by
  intro f hf cur n r hr
  simp only [exactShrinkAlloc] at hf
  cases hf
  simp only [Option.some.injEq] at hr
  omega

theorem exactShrinkAlloc_conforms : exactShrinkAlloc.ShrinkConforms := by
  intro f hf cur n r hr
  have := exactShrinkAlloc_exact f hf cur n r hr
  omega

/-- C1: the claim says pop_back destroys the element at slot `size - 1`.
The code (realloc4cpp.cpp lines 140-146) executes `buf.destroy(next);
--next;`, and `next` points one past the last live element, so the address
handed to `destroy` is slot `size`, not `size - 1`.  Evaluated at a
one-element array (begin 100, end 104, next 101): the destroyed address is
101, i.e. slot 1 = size, while the claim demands slot 0 = size - 1; the
size decrement and unchanged capacity parts do hold. -/
theorem C1_pop_back_destroys_wrong_slot :
    ((⟨⟨100, 104⟩, 101⟩ : autogrow_array).size = 1) ∧
    (⟨⟨100, 104⟩, 101⟩ : autogrow_array).pop_back = (⟨⟨100, 104⟩, 100⟩, 101) ∧
    ((⟨⟨100, 104⟩, 101⟩ : autogrow_array).pop_back.2 - 100 = 1) ∧
    ¬((⟨⟨100, 104⟩, 101⟩ : autogrow_array).pop_back.2 - 100 = 1 - 1) ∧
    ((⟨⟨100, 104⟩, 101⟩ : autogrow_array).pop_back.1.size = 0) ∧
    ((⟨⟨100, 104⟩, 101⟩ : autogrow_array).pop_back.1.capacity = 4) := by
  decide

/-- C2: the claim says capacity() ≥ size() after every operation, in
particular after push_back on a default-constructed array of capacity 0.
The code violates it there: `additional_capacity(1)` returns
`min(0, headroom) = 0`, the in-place expand fails (no-capability
provider), and the fallback buffer is sized `size() + add_cap = 0`, into
which the new element is constructed anyway — leaving size 1 > capacity 0. -/
theorem C2_capacity_invariant_violation :
    autogrow_array.default_ctor.push_back Allocator.noCap 4 500 =
      some ⟨⟨500, 500⟩, 501⟩ ∧
    ((⟨⟨500, 500⟩, 501⟩ : autogrow_array).size = 1) ∧
    ((⟨⟨500, 500⟩, 501⟩ : autogrow_array).capacity = 0) ∧
    ¬((⟨⟨500, 500⟩, 501⟩ : autogrow_array).size ≤
        (⟨⟨500, 500⟩, 501⟩ : autogrow_array).capacity) := by
  refine ⟨?_, by decide, by decide, by decide⟩
  rfl

/-- C3 counterexample: the claim says that when the requested count times
the element size overflows the representable size, the buffer constructor
raises LengthError before calling the provider.  With element size 4 and
`n = 2 ^ 63` (so `n * 4` exceeds `~size_type(0)`), the constructor
(realloc4cpp.cpp lines 24-29) nevertheless calls `allocate` (call count 1)
and returns the allocated buffer — no LengthError is raised. -/
theorem C3_ctor_overflow_unchecked_cex :
    size_type_max < 2 ^ 63 * 4 ∧
    raw_buffer.ctor (fun _ => some 1000) (2 ^ 63) =
      (.ok ⟨1000, 1000 + 2 ^ 63⟩, 1) := by
  exact ⟨by norm_num [size_type_max], rfl⟩

/-- C3 amended: the sizing constructor performs no overflow check at all —
for every allocate function and every requested count it calls the
provider's allocate exactly once and never raises LengthError; the
LengthError overflow guard of the spec lives only in
`additional_capacity`, which throws exactly when the request exceeds the
headroom `max_capacity() - capacity()`. -/
theorem C3_ctor_never_length_error :
    (∀ alloc n, (raw_buffer.ctor alloc n).2 = 1 ∧
      (raw_buffer.ctor alloc n).1 ≠ CtorResult.lengthError) ∧
    (∀ (b : raw_buffer) (s n : Nat),
      b.additional_capacity s n = .error () ↔
        max_capacity s - b.capacity < n) := by
  constructor
  · intro alloc n
    unfold raw_buffer.ctor
    cases alloc n <;> simp
  · intro b s n
    simp only [raw_buffer.additional_capacity]
    by_cases h : max_capacity s - b.capacity < n <;> simp [h]

/-- C4: the adapter's resize-at-least request resolves exactly in the
spec's fixed order — dual-bound primitive: one direct call; single-target
primitive: one call with the preferred size, retried once with the
minimum exactly when the first call fails and the minimum differs from
the initial preferred size; no capability: false with zero provider
calls.  Stated as equality of the code translation
(allocator_traits.h lines 16-42) with the definition written from the
spec's words. -/
theorem C4_resize_resolution_order (api : ResizeAPI)
    (cur preferred at_least : Nat) :
    resize_allocated_at_least api cur preferred at_least =
      resize_in_place_spec api cur preferred at_least := by
  cases api with
  | dualBound f => rfl
  | singleTarget f =>
    simp only [resize_allocated_at_least, resize_in_place_spec]
    by_cases h1 : (f cur preferred).ok <;>
      by_cases h2 : at_least = preferred <;> simp [h1, h2]
  | absent => rfl

/-- C9 counterexample: the claim says move assignment leaves the moved-from
source with both bounds null.  The code (realloc4cpp.cpp line 40) swaps
instead: assigning from source (200, 205) into a target owning block
(100, 110) leaves the source holding (100, 110), not (0, 0). -/
theorem C9_move_assign_not_null_cex :
    (raw_buffer.move_assign ⟨100, 110⟩ ⟨200, 205⟩).2 ≠ (⟨0, 0⟩ : raw_buffer) ∧
    (raw_buffer.move_assign ⟨100, 110⟩ ⟨200, 205⟩).2 =
      (⟨100, 110⟩ : raw_buffer) := by
  decide

/-- C9 amended: move construction transfers the block and nulls both bounds
of the source; move assignment swaps the two buffers, so the moved-from
source receives the target's previous block (null only when the target
was empty).  No element is moved by either operation (neither touches
element storage in the model, mirroring the pointer-only code). -/
theorem C9_move_semantics (self o : raw_buffer) :
    (o.move_ctor.1 = o ∧ o.move_ctor.2.begin_ = 0 ∧ o.move_ctor.2.end_ = 0) ∧
    (raw_buffer.move_assign self o).1 = o ∧
    (raw_buffer.move_assign self o).2 = self := by
  cases self
  cases o
  simp [raw_buffer.move_ctor, raw_buffer.move_assign]

/-- C5: under the spec's provider contract, whenever
`expand_by_at_least(preferred_n, least_n)` with `least_n ≤ preferred_n`
returns true the new capacity is at least the old capacity plus
`least_n`; and the result may exceed old capacity plus `preferred_n`
(witnessed by a conforming provider that over-delivers), so equality with
the preferred amount is never guaranteed. -/
theorem C5_expand_at_least_postcondition (a : Allocator) (b : raw_buffer)
    (preferred_n least_n : Nat) (hconf : a.ExpandConforms)
    (hle : least_n ≤ preferred_n) :
    (∀ b', b.expand_by_at_least a preferred_n least_n = (true, b') →
      b.capacity + least_n ≤ b'.capacity) ∧
    (∃ a2 : Allocator, a2.ExpandConforms ∧
      (b.expand_by_at_least a2 preferred_n least_n).1 = true ∧
      b.capacity + preferred_n <
        (b.expand_by_at_least a2 preferred_n least_n).2.capacity) := by
  constructor
  · intro b' h
    unfold raw_buffer.expand_by_at_least allocator_traits.expand_by at h
    cases hf : a.expandFn with
    | none => rw [hf] at h; simp at h
    | some f =>
      rw [hf] at h
      simp only [] at h
      cases hr : f b.capacity preferred_n least_n with
      | none => rw [hr] at h; simp at h
      | some r =>
        rw [hr] at h
        simp only [Prod.mk.injEq] at h
        have hc := hconf f hf b.capacity preferred_n least_n r hr
        rw [← h.2]
        simp only [raw_buffer.capacity] at hc ⊢
        omega
  · refine ⟨⟨some (fun cur p l => some (cur + p + l + 1)), none⟩, ?_, ?_, ?_⟩
    · intro f hf cur p l r hr
      simp only [Option.some.injEq] at hf
      cases hf
      simp only [Option.some.injEq] at hr
      omega
    · rfl
    · simp only [raw_buffer.expand_by_at_least, allocator_traits.expand_by,
        raw_buffer.capacity]
      omega

/-- Witness for C5 at buffer (100, 110) with preferred 5, least 3, and the
exactly-minimum-granting conforming provider. -/
theorem C5_expand_witness :
    Allocator.ExpandConforms exactExpandAlloc ∧ (3 : Nat) ≤ 5 ∧
    ((∀ b', raw_buffer.expand_by_at_least ⟨100, 110⟩ exactExpandAlloc 5 3 =
        (true, b') →
      raw_buffer.capacity ⟨100, 110⟩ + 3 ≤ b'.capacity) ∧
    (∃ a2 : Allocator, a2.ExpandConforms ∧
      (raw_buffer.expand_by_at_least ⟨100, 110⟩ a2 5 3).1 = true ∧
      raw_buffer.capacity ⟨100, 110⟩ + 5 <
        (raw_buffer.expand_by_at_least ⟨100, 110⟩ a2 5 3).2.capacity)) :=
  ⟨exactExpandAlloc_conforms, by decide,
    C5_expand_at_least_postcondition exactExpandAlloc ⟨100, 110⟩ 5 3
      exactExpandAlloc_conforms (by decide)⟩

/-- C6: whenever `expand_by_at_least` returns false the buffer is exactly
what it was before the call (both bounds, hence the capacity); and with a
provider lacking the expand capability it returns false unconditionally,
leaving the buffer untouched. -/
theorem C6_expand_failure_no_mutation (a : Allocator) (b : raw_buffer)
    (preferred_n least_n : Nat) :
    (∀ b', b.expand_by_at_least a preferred_n least_n = (false, b') →
      b' = b) ∧
    (a.expandFn = none →
      b.expand_by_at_least a preferred_n least_n = (false, b)) := by
  cases hf : a.expandFn with
  | none =>
    simp [raw_buffer.expand_by_at_least, allocator_traits.expand_by, hf]
  | some f =>
    cases hr : f b.capacity preferred_n least_n with
    | none =>
      simp [raw_buffer.expand_by_at_least, allocator_traits.expand_by, hf, hr]
    | some c =>
      simp [raw_buffer.expand_by_at_least, allocator_traits.expand_by, hf, hr]

/-- Witness for C6 at buffer (100, 110) with the capability-free provider:
the no-capability hypothesis is discharged by rfl. -/
theorem C6_expand_failure_witness :
    raw_buffer.expand_by_at_least ⟨100, 110⟩ Allocator.noCap 5 3 =
      (false, ⟨100, 110⟩) :=
  (C6_expand_failure_no_mutation Allocator.noCap ⟨100, 110⟩ 5 3).2 rfl

/-- C7: under the spec's shrink contract, for `n ≤ capacity`, a successful
`shrink_by(n)` leaves the new capacity at most the old capacity minus `n`
(shrunk by at least `n`); a provider without the capability makes the
call return false with the buffer untouched. -/
theorem C7_shrink_by_postcondition (a : Allocator) (b : raw_buffer) (n : Nat)
    (hconf : a.ShrinkConforms) (hn : n ≤ b.capacity) :
    (∀ b', b.shrink_by a n = (true, b') →
      b'.capacity ≤ b.capacity - n) ∧
    (a.shrinkFn = none → b.shrink_by a n = (false, b)) := by
  constructor
  · intro b' h
    unfold raw_buffer.shrink_by allocator_traits.shrink_by at h
    cases hf : a.shrinkFn with
    | none => rw [hf] at h; simp at h
    | some f =>
      rw [hf] at h
      simp only [] at h
      cases hr : f b.capacity n with
      | none => rw [hr] at h; simp at h
      | some r =>
        rw [hr] at h
        simp only [Prod.mk.injEq] at h
        have hc := hconf f hf b.capacity n r hr
        rw [← h.2]
        simp only [raw_buffer.capacity] at hc ⊢
        omega
  · intro hf
    simp [raw_buffer.shrink_by, allocator_traits.shrink_by, hf]

/-- Witness for C7 at buffer (100, 110), n = 4, with the exact-shrink
conforming provider. -/
theorem C7_shrink_witness :
    Allocator.ShrinkConforms exactShrinkAlloc ∧ (4 : Nat) ≤ 10 ∧
    ((∀ b', raw_buffer.shrink_by ⟨100, 110⟩ exactShrinkAlloc 4 = (true, b') →
      b'.capacity ≤ raw_buffer.capacity ⟨100, 110⟩ - 4) ∧
    (exactShrinkAlloc.shrinkFn = none →
      raw_buffer.shrink_by ⟨100, 110⟩ exactShrinkAlloc 4 =
        (false, ⟨100, 110⟩))) :=
  ⟨exactShrinkAlloc_conforms, by decide,
    C7_shrink_by_postcondition exactShrinkAlloc ⟨100, 110⟩ 4
      exactShrinkAlloc_conforms (by decide)⟩

/-- C8: shrink_to_fit is a no-op when size() == capacity(); otherwise,
with a well-formed array and a provider whose in-place shrink (when it
answers at all) lands exactly at the requested size — or with the
always-possible exact-size fallback reallocation — after shrink_to_fit
the capacity equals the (unchanged) size. -/
theorem C8_shrink_to_fit_capacity (a : Allocator) (arr : autogrow_array)
    (newAddr : Nat) (hwf1 : arr.buf.begin_ ≤ arr.next)
    (hwf2 : arr.next ≤ arr.buf.end_) (hexact : a.ShrinkExact) :
    (arr.size = arr.capacity → arr.shrink_to_fit a newAddr = arr) ∧
    (arr.shrink_to_fit a newAddr).capacity = arr.size ∧
    (arr.shrink_to_fit a newAddr).size = arr.size := by
  by_cases heq : arr.size = arr.capacity
  · refine ⟨fun _ => by simp [autogrow_array.shrink_to_fit, heq], ?_, ?_⟩ <;>
      simp [autogrow_array.shrink_to_fit, heq]
  · refine ⟨fun h => absurd h heq, ?_⟩
    unfold autogrow_array.shrink_to_fit
    rw [if_neg heq]
    unfold raw_buffer.shrink_by allocator_traits.shrink_by
    cases hf : a.shrinkFn with
    | none =>
      simp [autogrow_array.capacity, autogrow_array.size,
        raw_buffer.capacity]
    | some f =>
      simp only []
      cases hr : f arr.buf.capacity (arr.capacity - arr.size) with
      | none =>
        simp [autogrow_array.capacity, autogrow_array.size,
          raw_buffer.capacity]
      | some r =>
        have hrr := hexact f hf arr.buf.capacity
          (arr.capacity - arr.size) r hr
        simp only [autogrow_array.capacity, autogrow_array.size,
          raw_buffer.capacity] at hrr heq ⊢
        have hle2 : arr.next - arr.buf.begin_ ≤ arr.buf.end_ - arr.buf.begin_ :=
          Nat.sub_le_sub_right hwf2 _
        subst hrr
        refine ⟨?_, trivial⟩
        rw [Nat.add_sub_cancel_left, Nat.sub_sub_self hle2]

/-- Witness for C8 at the array (begin 100, end 110, next 104): size 4,
capacity 10, exact-shrink provider, fallback address 300. -/
theorem C8_shrink_witness :
    (100 : Nat) ≤ 104 ∧ (104 : Nat) ≤ 110 ∧
    Allocator.ShrinkExact exactShrinkAlloc ∧
    (((⟨⟨100, 110⟩, 104⟩ : autogrow_array).size =
        (⟨⟨100, 110⟩, 104⟩ : autogrow_array).capacity →
      (⟨⟨100, 110⟩, 104⟩ : autogrow_array).shrink_to_fit exactShrinkAlloc 300 =
        ⟨⟨100, 110⟩, 104⟩) ∧
    ((⟨⟨100, 110⟩, 104⟩ : autogrow_array).shrink_to_fit
        exactShrinkAlloc 300).capacity =
      (⟨⟨100, 110⟩, 104⟩ : autogrow_array).size ∧
    ((⟨⟨100, 110⟩, 104⟩ : autogrow_array).shrink_to_fit
        exactShrinkAlloc 300).size =
      (⟨⟨100, 110⟩, 104⟩ : autogrow_array).size) :=
  ⟨by decide, by decide, exactShrinkAlloc_exact,
    C8_shrink_to_fit_capacity exactShrinkAlloc ⟨⟨100, 110⟩, 104⟩ 300
      (by decide) (by decide) exactShrinkAlloc_exact⟩

/-- C10: when push_back on a full array (next == buf.end()) takes the
reallocation fallback (the adapter's expand call fails or is
unavailable), and the growth request does not overflow, the replacement
buffer's capacity is exactly
old size + min(old capacity, max_capacity - old capacity): a
capacity-dependent, roughly doubling policy, which in particular adds
zero extra slots when the old capacity is 0. -/
theorem C10_growth_policy (a : Allocator) (arr : autogrow_array)
    (s newAddr : Nat) (hfull : arr.next = arr.buf.end_)
    (hroom : 1 ≤ max_capacity s - arr.buf.capacity)
    (hfail : allocator_traits.expand_by a arr.buf.capacity
      (min arr.buf.capacity (max_capacity s - arr.buf.capacity)) 1 = none) :
    ∃ st, arr.push_back a s newAddr = some st ∧
      st.capacity = arr.size +
        min arr.buf.capacity (max_capacity s - arr.buf.capacity) := by
  refine ⟨⟨⟨newAddr, newAddr + (arr.size +
      min arr.buf.capacity (max_capacity s - arr.buf.capacity))⟩,
    (newAddr + arr.size) + 1⟩, ?_, ?_⟩
  · unfold autogrow_array.push_back
    rw [if_pos hfull]
    simp only [raw_buffer.additional_capacity]
    rw [if_neg (by omega)]
    simp only [raw_buffer.expand_by_at_least]
    rw [hfail]
  · simp only [autogrow_array.capacity, raw_buffer.capacity]
    omega

/-- Witness for C10 at a full array of capacity 4 (begin 100, end 104,
next 104), element size 4, the capability-free provider, and fallback
address 500: the replacement capacity is 4 + min 4 headroom = 8. -/
theorem C10_growth_witness :
    (⟨⟨100, 104⟩, 104⟩ : autogrow_array).next =
      (⟨⟨100, 104⟩, 104⟩ : autogrow_array).buf.end_ ∧
    1 ≤ max_capacity 4 - (⟨⟨100, 104⟩, 104⟩ : autogrow_array).buf.capacity ∧
    ∃ st, (⟨⟨100, 104⟩, 104⟩ : autogrow_array).push_back
        Allocator.noCap 4 500 = some st ∧
      st.capacity = (⟨⟨100, 104⟩, 104⟩ : autogrow_array).size +
        min (⟨⟨100, 104⟩, 104⟩ : autogrow_array).buf.capacity
          (max_capacity 4 -
            (⟨⟨100, 104⟩, 104⟩ : autogrow_array).buf.capacity) :=
  ⟨rfl, by decide,
    C10_growth_policy Allocator.noCap ⟨⟨100, 104⟩, 104⟩ 4 500 rfl
      (by decide) rfl⟩
